import Mathlib

/-!
Verification of the session and protocol management subsystem of the
Philips Air+ Home Assistant integration: a shallow embedding of the
relevant parts of `mqtt_client.py`, `auth.py`, `coordinator.py` and
`model_manager.py`, followed by theorems settling the specification's
claims about them.

Conventions of the embedding: Python optional values become `Option`,
Python truthiness is made explicit (`pyTruthyStr`, `pyTruthyInt`),
wall-clock timestamps and durations are rationals (seconds), stateful
methods become pure functions from state to result-and-state, and
external effects (HTTP responses, broker acknowledgements, correlation
ids, timestamps) are passed in as explicit parameters.
-/

namespace PhilipsAirplus

/-- Python truthiness of an optional string: `None` and `""` are falsy. -/
def pyTruthyStr : Option String → Bool
  | none => false
  | some s => !s.isEmpty

/-- Python truthiness of an optional integer: `None` and `0` are falsy. -/
def pyTruthyInt : Option Int → Bool
  | none => false
  | some n => n != 0

/-- Python `x or y` on two optional strings: `x` if truthy, else `y`. -/
def pyOrStr (x y : Option String) : Option String :=
  if pyTruthyStr x then x else y

/-! ## MQTT client state (`mqtt_client.py`, class `PhilipsAirplusMQTTClient`) -/

/-- The mutable fields of `PhilipsAirplusMQTTClient` that the claims are
about.  `client` records whether `self._client` is not `None`;
`published` accumulates the `(topic, payload)` pairs handed to
`self._client.publish`. -/
structure MQTTState where
  access_token : String
  signature : String
  device_id : String
  outbound_topic : String
  client : Bool
  connected : Bool
  connecting : Bool
  refreshing_credentials : Bool
  reconnect_attempts : Nat
  last_disconnect_time : ℚ
  last_disconnect_rc : Int
  last_nonzero_speed : Int
  published : List (String × String)
  deriving Repr, DecidableEq

/-- Constant `self._reconnect_base = 1.0`. -/
def reconnect_base : ℚ := 1

/-- Constant `self._reconnect_max_backoff = 300.0`. -/
def reconnect_max_backoff : ℚ := 300

/-- Constant `self._rc7_cooldown = 120.0`. -/
def rc7_cooldown : ℚ := 120

/-- Query `is_connected`: `return self._connected or self._refreshing_credentials`. -/
def is_connected (st : MQTTState) : Bool :=
  st.connected || st.refreshing_credentials

/-- Handler `_on_disconnect(client, userdata, rc)` at time `now`: on a non-zero
cause code it bumps the consecutive-disconnect counter (capped at 32),
records the disconnect time and cause, and drops the client; in all
cases it clears `_connected`. -/
def on_disconnect (now : ℚ) (rc : Int) (st : MQTTState) : MQTTState :=
  if rc ≠ 0 then
    { st with
      reconnect_attempts := min (st.reconnect_attempts + 1) 32
      last_disconnect_time := now
      last_disconnect_rc := rc
      client := false
      connected := false }
  else
    { st with connected := false }

/-- The exponential-backoff sleep at the top of `_blocking_connect`:
if there was a recent abnormal disconnect (`_last_disconnect_time`
truthy and `_last_disconnect_rc != 0`), compute
`min(base * 2 ** max(0, attempts - 1), max_backoff)` and sleep the part
of it not already elapsed.  Returns the slept duration.  (Nat
subtraction `attempts - 1` coincides with Python's `max(0, attempts - 1)`.) -/
def backoffWait (st : MQTTState) (now : ℚ) : ℚ :=
  if st.last_disconnect_time ≠ 0 ∧ st.last_disconnect_rc ≠ 0 then
    let elapsed := now - st.last_disconnect_time
    let backoff := min (reconnect_base * 2 ^ (st.reconnect_attempts - 1)) reconnect_max_backoff
    if elapsed < backoff then backoff - elapsed else 0
  else 0

/-- The rc=7 cooldown sleep of `_blocking_connect`, evaluated at time
`now` (which is already past the exponential-backoff sleep): if the last
disconnect had cause 7 and happened less than `_rc7_cooldown` ago, sleep
the remainder of the cooldown.  Returns the slept duration. -/
def rc7ExtraWait (st : MQTTState) (now : ℚ) : ℚ :=
  if st.last_disconnect_rc = 7 then
    if st.last_disconnect_time ≠ 0 then
      if now - st.last_disconnect_time < rc7_cooldown then
        rc7_cooldown - (now - st.last_disconnect_time)
      else 0
    else 0
  else 0

/-- Total time `_blocking_connect` sleeps before dialing, for a connect
attempt starting at `now`: the exponential-backoff sleep followed by the
rc=7 cooldown sleep, the latter evaluated after the clock has advanced
by the former. -/
def throttleWait (st : MQTTState) (now : ℚ) : ℚ :=
  backoffWait st now + rc7ExtraWait st (now + backoffWait st now)

/-- Environment of one publish attempt: the generated correlation id,
the timestamp string, and whether `client.publish` returns
`MQTT_ERR_SUCCESS`. -/
structure PubEnv where
  cid : String
  timestamp : String
  pubOk : Bool
  deriving Repr, DecidableEq

/-- Rendering of a `properties` dict by `json.dumps(..., separators=(',', ':'))`. -/
def renderProps : List (String × Int) → String
  | [] => ""
  | [(k, v)] => "\"" ++ k ++ "\":" ++ toString v
  | (k, v) :: rest => "\"" ++ k ++ "\":" ++ toString v ++ "," ++ renderProps rest

/-- Method `_build_command_payload(command_name, port_name, properties)` with the
correlation id and timestamp supplied by the environment. -/
def build_command_payload (cid ts cn portName : String) (props : List (String × Int)) : String :=
  "\x7b\"cid\":\"" ++ cid ++ "\",\"time\":\"" ++ ts ++
    "\",\"type\":\"command\",\"cn\":\"" ++ cn ++
    "\",\"ct\":\"mobile\",\"data\":\x7b\"portName\":\"" ++ portName ++
    "\",\"properties\":\x7b" ++ renderProps props ++ "\x7d\x7d\x7d"

/-- Method `_publish(payload, topic)`: fails fast when the client is gone or not
connected; otherwise hands the message to the broker, whose
acknowledgement is `ok`. -/
def publish (ok : Bool) (payload : String) (topic : Option String) (st : MQTTState) :
    Bool × MQTTState :=
  if !st.client || !st.connected then (false, st)
  else
    let t := match topic with
      | some t => t
      | none => st.outbound_topic
    if ok then (true, { st with published := st.published ++ [(t, payload)] })
    else (false, st)

/-- Method `request_port_status(port_name)`. -/
def request_port_status (e : PubEnv) (portName : String) (st : MQTTState) :
    Bool × MQTTState :=
  if !st.connected then (false, st)
  else publish e.pubOk (build_command_payload e.cid e.timestamp "getPort" portName []) none st

/-- Method `set_fan_speed(speed, raw_key)`: fail fast when not connected;
otherwise build the `setPort` command, remember the last non-zero speed,
publish, and fire a follow-up status request (whose result is ignored). -/
def set_fan_speed (e1 e2 : PubEnv) (speed : Int) (raw_key : String) (st : MQTTState) :
    Bool × MQTTState :=
  if !st.connected then (false, st)
  else
    let payload := build_command_payload e1.cid e1.timestamp "setPort" "Control" [(raw_key, speed)]
    let st1 := if speed > 0 then { st with last_nonzero_speed := speed } else st
    let r1 := publish e1.pubOk payload none st1
    let r2 := request_port_status e2 "Status" r1.2
    (r1.1, r2.2)

/-- Method `set_mode(mode, raw_key)`. -/
def set_mode (e1 e2 : PubEnv) (mode : Int) (raw_key : String) (st : MQTTState) :
    Bool × MQTTState :=
  if !st.connected then (false, st)
  else
    let payload := build_command_payload e1.cid e1.timestamp "setPort" "Control" [(raw_key, mode)]
    let r1 := publish e1.pubOk payload none st
    let r2 := request_port_status e2 "Status" r1.2
    (r1.1, r2.2)

/-- Method `set_power(power_on, ...)`: fail fast when not connected; otherwise
publish a shadow-update document and, on success, request a status
refresh.  (The raw key parameters of the Python method are unused by its
body.) -/
def set_power (e1 e2 : PubEnv) (power_on : Bool) (st : MQTTState) : Bool × MQTTState :=
  if !st.connected then (false, st)
  else
    let power_val : Int := if power_on then 1 else 0
    let shadow_payload :=
      if power_val = 1 then "\x7b\"state\":\x7b\"desired\":\x7b\"powerOn\":true\x7d\x7d\x7d"
      else "\x7b\"state\":\x7b\"desired\":\x7b\"powerOn\":false\x7d\x7d\x7d"
    let r1 := publish e1.pubOk shadow_payload
      (some ("$aws/things/" ++ st.device_id ++ "/shadow/update")) st
    let r2 := if r1.1 then request_port_status e2 "Status" r1.2 else r1
    (r1.1, r2.2)

/-- Method `disconnect()`: stop and drop the client, clear `_connected`. -/
def mqtt_disconnect (st : MQTTState) : MQTTState :=
  { st with client := false, connected := false }

/-- Method `async_connect()`: immediately true when connected, immediately false
when a connect is in flight, otherwise runs `_blocking_connect` — whose
interaction with the network is abstracted by the oracle `net`. -/
def async_connect (net : MQTTState → Bool × MQTTState) (st : MQTTState) : Bool × MQTTState :=
  if st.connected then (true, st)
  else if st.connecting then (false, st)
  else net st

/-- Method `async_update_credentials(access_token, signature)`: store the new
credentials, then — if no connect is in flight — set the refreshing
flag, disconnect, reconnect, and clear the flag regardless of the
outcome. -/
def async_update_credentials (net : MQTTState → Bool × MQTTState)
    (tok sg : String) (st : MQTTState) : Bool × MQTTState :=
  let st1 := { st with access_token := tok, signature := sg }
  if st1.connecting then (false, st1)
  else
    let st2 := { st1 with refreshing_credentials := true }
    let st3 := mqtt_disconnect st2
    let r := async_connect net st3
    (r.1, { r.2 with refreshing_credentials := false })

/-! ### Concrete states used as witnesses and counterexamples -/

/-- A disconnected client in its idle state. -/
def mqtt0 : MQTTState :=
  { access_token := "tok"
    signature := "sg1"
    device_id := "da-ABC"
    outbound_topic := "da_ctrl/da-ABC/to_ncp"
    client := true
    connected := false
    connecting := false
    refreshing_credentials := false
    reconnect_attempts := 0
    last_disconnect_time := 0
    last_disconnect_rc := 0
    last_nonzero_speed := 8
    published := [] }

/-- A concrete publish environment. -/
def pe0 : PubEnv := { cid := "a1b2c3d4", timestamp := "2026-01-01T00:00:00Z", pubOk := true }

/-- A client with a connect attempt in flight. -/
def mqttConnecting : MQTTState :=
  { mqtt0 with connecting := true, access_token := "old-token", signature := "old-sg" }

/-! ## Claims C10, C8, C1 -/

/-- C10: `is_connected()` returns true whenever the refreshing-credentials
flag is set, even while the physical connection is down, and reports the
actual connected flag when no credential refresh is in progress. -/
theorem C10_is_connected_masks_refresh (st : MQTTState) :
    is_connected { st with refreshing_credentials := true, connected := false } = true ∧
    is_connected { st with refreshing_credentials := true } = true ∧
    is_connected { st with refreshing_credentials := false } = st.connected := by
  simp [is_connected]

/-- C8: every command operation (set fan speed, set mode, set power,
status request) invoked while the session is not connected returns false
with the state — including the connection state and the list of
published messages — unchanged. -/
theorem C8_commands_fail_fast_when_disconnected (e1 e2 : PubEnv) (st : MQTTState)
    (speed mode : Int) (pw : Bool) (raw_key port : String)
    (h : st.connected = false) :
    set_fan_speed e1 e2 speed raw_key st = (false, st) ∧
    set_mode e1 e2 mode raw_key st = (false, st) ∧
    set_power e1 e2 pw st = (false, st) ∧
    request_port_status e1 port st = (false, st) := by
  simp [set_fan_speed, set_mode, set_power, request_port_status, h]

/-- Witness for C8 at a concrete disconnected state. -/
theorem C8_commands_fail_fast_when_disconnected_witness :
    mqtt0.connected = false ∧ set_fan_speed pe0 pe0 3 "D03-12" mqtt0 = (false, mqtt0) := by
  refine ⟨rfl, ?_⟩
  exact (C8_commands_fail_fast_when_disconnected pe0 pe0 mqtt0 3 1 true "D03-12" "Status" rfl).1

/-- C1 as stated is false: `async_update_credentials` overwrites the
stored access token (and signature) *before* checking the connecting
flag, so a call during an in-flight connect returns false but does not
leave the stored credentials unchanged. -/
theorem C1_counterexample :
    (async_update_credentials (fun s => (false, s)) "new-token" "new-sg" mqttConnecting).1
        = false ∧
    (async_update_credentials (fun s => (false, s)) "new-token" "new-sg" mqttConnecting).2.access_token
        ≠ mqttConnecting.access_token ∧
    (async_update_credentials (fun s => (false, s)) "new-token" "new-sg" mqttConnecting).2.signature
        ≠ mqttConnecting.signature := by
  refine ⟨rfl, ?_, ?_⟩ <;> decide

/-- C1 amended: if a connect attempt is in flight when
`update_credentials` is called, the call returns false immediately and
performs no disconnect or reconnect, but the stored access token and
signature are overwritten with the new values. -/
theorem C1_update_credentials_deferred (net : MQTTState → Bool × MQTTState)
    (tok sg : String) (st : MQTTState) (h : st.connecting = true) :
    async_update_credentials net tok sg st =
      (false, { st with access_token := tok, signature := sg }) := by
  simp [async_update_credentials, h]

/-- Witness for the amended C1 at a concrete in-flight state. -/
theorem C1_update_credentials_deferred_witness :
    async_update_credentials (fun s => (false, s)) "new-token" "new-sg" mqttConnecting =
      (false, { mqttConnecting with access_token := "new-token", signature := "new-sg" }) :=
  C1_update_credentials_deferred (fun s => (false, s)) "new-token" "new-sg" mqttConnecting rfl

/-! ## Claim C5: reconnection throttling -/

/-- A client 10 seconds past a cause-7 disconnect, 8 consecutive
disconnects deep. -/
def mqttRc7Deep : MQTTState :=
  { mqtt0 with reconnect_attempts := 8, last_disconnect_rc := 7, last_disconnect_time := 100 }

/-- C5 as stated is false: after a cause-code-7 disconnect 10 s ago the
enforced wait is *not* `120 - 10 = 110` s regardless of attempt count.
With 8 consecutive disconnects the exponential backoff (128 s) is slept
first, the cooldown window has then already passed, and the total wait
is 118 s. -/
theorem C5_counterexample :
    throttleWait mqttRc7Deep 110 ≠ 120 - (110 - 100) ∧
    throttleWait mqttRc7Deep 110 = 118 := by
  have h : throttleWait mqttRc7Deep 110 = 118 := by
    norm_num [throttleWait, backoffWait, rc7ExtraWait, mqttRc7Deep, mqtt0,
      reconnect_base, reconnect_max_backoff, rc7_cooldown, min_def]
  exact ⟨by rw [h]; norm_num, h⟩

/-- C5 amended: before a connect attempt following an abnormal disconnect
(non-zero cause) with elapsed time `t` still inside the exponential
backoff `min(1 * 2^(attempts-1), 300)`, the slept backoff is that bound
minus `t`; the consecutive-disconnect count is capped at 32 by the
disconnect handler.  After a cause-code-7 disconnect with `t < 120` the
total enforced wait is `max(backoff, 120) - t` — the fixed 120 s cooldown
only determines the wait while the exponential backoff does not exceed
it. -/
theorem C5_throttle_wait (st : MQTTState) (now : ℚ)
    (hT : st.last_disconnect_time ≠ 0)
    (hrc : st.last_disconnect_rc ≠ 0)
    (ht : 0 ≤ now - st.last_disconnect_time) :
    (st.last_disconnect_rc ≠ 7 →
      now - st.last_disconnect_time <
          min (reconnect_base * 2 ^ (st.reconnect_attempts - 1)) reconnect_max_backoff →
      throttleWait st now =
        min (reconnect_base * 2 ^ (st.reconnect_attempts - 1)) reconnect_max_backoff -
          (now - st.last_disconnect_time)) ∧
    (st.last_disconnect_rc = 7 →
      now - st.last_disconnect_time < rc7_cooldown →
      throttleWait st now =
        max (min (reconnect_base * 2 ^ (st.reconnect_attempts - 1)) reconnect_max_backoff)
            rc7_cooldown -
          (now - st.last_disconnect_time)) ∧
    (∀ rc : Int, rc ≠ 0 →
      (on_disconnect now rc st).reconnect_attempts = min (st.reconnect_attempts + 1) 32 ∧
      (on_disconnect now rc st).reconnect_attempts ≤ 32) := by
  set t := now - st.last_disconnect_time with hteq
  set b := min (reconnect_base * 2 ^ (st.reconnect_attempts - 1)) reconnect_max_backoff with hbeq
  have hw1 : backoffWait st now = if t < b then b - t else 0 := by
    simp only [backoffWait, if_pos (And.intro hT hrc), ← hteq, ← hbeq]
  refine ⟨?_, ?_, ?_⟩
  · intro h7 hlt
    have hex : ∀ x : ℚ, rc7ExtraWait st x = 0 := fun x => by
      simp [rc7ExtraWait, h7]
    rw [throttleWait, hw1, if_pos hlt, hex]
    ring
  · intro h7 hcool
    by_cases hlt : t < b
    · have hw1' : backoffWait st now = b - t := by rw [hw1, if_pos hlt]
      rw [throttleWait, hw1']
      have helapsed : now + (b - t) - st.last_disconnect_time = b := by
        rw [hteq]; ring
      by_cases hb : b < rc7_cooldown
      · have hex : rc7ExtraWait st (now + (b - t)) = rc7_cooldown - b := by
          simp only [rc7ExtraWait, if_pos h7, if_pos hT, helapsed, if_pos hb]
        have hmax : max b rc7_cooldown = rc7_cooldown := max_eq_right (le_of_lt hb)
        rw [hex, hmax]; ring
      · have hex : rc7ExtraWait st (now + (b - t)) = 0 := by
          simp only [rc7ExtraWait, if_pos h7, if_pos hT, helapsed, if_neg hb]
        have hmax : max b rc7_cooldown = b := max_eq_left (le_of_not_lt hb)
        rw [hex, hmax]; ring
    · have hw1' : backoffWait st now = 0 := by rw [hw1, if_neg hlt]
      rw [throttleWait, hw1']
      have helapsed : now + 0 - st.last_disconnect_time = t := by
        rw [hteq]; ring
      have hex : rc7ExtraWait st (now + 0) = rc7_cooldown - t := by
        simp only [rc7ExtraWait, if_pos h7, if_pos hT, helapsed, if_pos hcool]
      have hmax : max b rc7_cooldown = rc7_cooldown :=
        max_eq_right (le_trans (le_of_not_lt hlt) hcool.le)
      rw [hex, hmax]; ring
  · intro rc h0
    constructor
    · simp [on_disconnect, h0]
    · simp [on_disconnect, h0]

/-- A client 10 seconds past a cause-7 disconnect after 3 consecutive
disconnects: here the claimed 110 s wait does hold. -/
def mqttRc7Shallow : MQTTState :=
  { mqtt0 with reconnect_attempts := 3, last_disconnect_rc := 7, last_disconnect_time := 100 }

/-- Witness for the amended C5: at attempt count 3 (backoff 4 s ≤ 120 s)
a cause-7 disconnect 10 s ago yields a total wait of 110 s. -/
theorem C5_throttle_wait_witness :
    throttleWait mqttRc7Shallow 110 = 110 := by
  have h := (C5_throttle_wait mqttRc7Shallow 110
    (by norm_num [mqttRc7Shallow, mqtt0])
    (by norm_num [mqttRc7Shallow, mqtt0])
    (by norm_num [mqttRc7Shallow, mqtt0])).2.1
    (by norm_num [mqttRc7Shallow, mqtt0])
    (by norm_num [mqttRc7Shallow, mqtt0, rc7_cooldown])
  rw [h]
  norm_num [mqttRc7Shallow, mqtt0, reconnect_base, reconnect_max_backoff, rc7_cooldown,
    min_def, max_def]

/-! ## Authentication manager (`auth.py`, class `PhilipsAirplusAuth`) -/

/-- The mutable fields of `PhilipsAirplusAuth`.  `expires_at` is an
absolute timestamp in seconds. -/
structure AuthState where
  access_token : Option String
  refresh_token : Option String
  expires_at : Option ℚ
  signature : Option String
  user_id : Option String
  client_id : Option String
  deriving Repr, DecidableEq

/-- Constant `TOKEN_REFRESH_BUFFER = timedelta(minutes=15)`, in seconds. -/
def TOKEN_REFRESH_BUFFER : ℚ := 15 * 60

/-- Method `ensure_access_token()` at time `now`.  The first component records
whether a refresh was issued; the second is the returned boolean, with
`refreshResult` standing for the outcome of the issued
`refresh_access_token()` call. -/
def ensure_access_token (refreshResult : Bool) (now : ℚ) (st : AuthState) : Bool × Bool :=
  if !pyTruthyStr st.refresh_token then (false, pyTruthyStr st.access_token)
  else
    match st.expires_at with
    | none => (true, refreshResult)
    | some e => if now + TOKEN_REFRESH_BUFFER > e then (true, refreshResult) else (false, true)

/-- A successful token-endpoint response, with both spellings of each
field that `refresh_access_token` probes. -/
structure TokenData where
  access_token : Option String
  accessToken : Option String
  refresh_token : Option String
  refreshToken : Option String
  exp : Option Int
  expires_in : Option Int
  deriving Repr, DecidableEq

/-- Outcome of `PhilipsAirplusOAuth2Implementation.async_refresh_token`:
a 200 response with a JSON body, a non-200 response (which raises
`RuntimeError` with the status and body in its message), or any other
exception. -/
inductive RefreshHttpOutcome
  | success (td : TokenData)
  | httpError (status : Nat) (body : String)
  | otherError
  deriving Repr, DecidableEq

/-- Result of `refresh_access_token`: returned true, returned false, or
raised `AuthenticationExpired`. -/
inductive RefreshResult
  | ok
  | failed
  | authExpired
  deriving Repr, DecidableEq

/-- Bool-valued test that `pat` occurs at the start of `s`. -/
def listHasPre (pat s : List Char) : Bool :=
  match pat, s with
  | [], _ => true
  | _ :: _, [] => false
  | p :: ps, c :: cs => p == c && listHasPre ps cs

/-- Bool-valued test that `pat` occurs somewhere in `s` (Python `in`). -/
def listHasSub (pat : List Char) : List Char → Bool
  | [] => listHasPre pat []
  | c :: cs => listHasPre pat (c :: cs) || listHasSub pat cs

/-- Python `pat in s` for strings. -/
def strContains (s pat : String) : Bool :=
  listHasSub pat.data s.data

/-- The message of the `RuntimeError` raised by `async_refresh_token`
for a non-200 response. -/
def refreshErrMsg (status : Nat) (body : String) : String :=
  "Refresh token request failed: " ++ toString status ++ " - " ++ body

/-- The revoked-token test of `refresh_access_token`:
`("400" in error_msg and "invalid_grant" in error_msg) or "401" in error_msg`. -/
def isRevokedMsg (msg : String) : Bool :=
  (strContains msg "400" && strContains msg "invalid_grant") || strContains msg "401"

/-- Method `refresh_access_token()` at time `now`, with the HTTP interaction
given by `http` and the follow-up signature fetch by `sigFetch` (`none`
when that fetch raised; its failure is non-fatal).  The token-refresh
callback only notifies the coordinator and is not part of this state. -/
def refresh_access_token (http : RefreshHttpOutcome) (sigFetch : Option String)
    (now : ℚ) (st : AuthState) : RefreshResult × AuthState :=
  if !pyTruthyStr st.refresh_token || !pyTruthyStr st.client_id then (.failed, st)
  else
    match http with
    | .success td =>
        let newAccess := pyOrStr td.access_token td.accessToken
        let newRefresh := pyOrStr td.refresh_token td.refreshToken
        let st1 := { st with
          access_token := newAccess
          refresh_token := if pyTruthyStr newRefresh then newRefresh else st.refresh_token }
        let st2 :=
          if pyTruthyInt td.exp then
            { st1 with expires_at := some ((td.exp.getD 0 : Int) : ℚ) }
          else if pyTruthyInt td.expires_in then
            { st1 with expires_at := some (now + ((td.expires_in.getD 0 : Int) : ℚ)) }
          else st1
        let st3 :=
          match sigFetch with
          | some s => { st2 with signature := some s }
          | none => st2
        (.ok, st3)
    | .httpError status body =>
        if isRevokedMsg (refreshErrMsg status body) then
          (.authExpired, { st with refresh_token := none })
        else (.failed, st)
    | .otherError => (.failed, st)

/-- A concrete healthy credential state. -/
def auth0 : AuthState :=
  { access_token := some "at0"
    refresh_token := some "rt0"
    expires_at := some 5000
    signature := some "sg0"
    user_id := some "u0"
    client_id := some "cid0" }

/-! ## Claim C4: proactive refresh policy -/

/-- C4: with a refresh token configured, `ensure_access_token` issues a
refresh whenever `expires_at` is unknown, issues one whenever
`now + 15min` exceeds the known `expires_at`, and never issues one when
`now + 15min ≤ expires_at`; with no refresh token configured it performs
no refresh and returns whether an access token is present. -/
theorem C4_ensure_access_token_policy (r : Bool) (now : ℚ) (st : AuthState) :
    (pyTruthyStr st.refresh_token = true →
      (st.expires_at = none → (ensure_access_token r now st).1 = true) ∧
      (∀ e : ℚ, st.expires_at = some e → now + TOKEN_REFRESH_BUFFER > e →
        (ensure_access_token r now st).1 = true) ∧
      (∀ e : ℚ, st.expires_at = some e → now + TOKEN_REFRESH_BUFFER ≤ e →
        (ensure_access_token r now st).1 = false)) ∧
    (pyTruthyStr st.refresh_token = false →
      ensure_access_token r now st = (false, pyTruthyStr st.access_token)) := by
  constructor
  · intro hr
    refine ⟨fun he => ?_, fun e he hgt => ?_, fun e he hle => ?_⟩
    · simp [ensure_access_token, hr, he]
    · simp [ensure_access_token, hr, he, hgt]
    · simp [ensure_access_token, hr, he, not_lt.mpr hle]
  · intro hr
    simp [ensure_access_token, hr]

/-- Witness for C4: with 0 + 15 min well below the known expiry 5000 s,
no refresh is issued. -/
theorem C4_ensure_access_token_policy_witness :
    (ensure_access_token true 0 auth0).1 = false := by
  have h := ((C4_ensure_access_token_policy true 0 auth0).1 (by decide)).2.2 5000 rfl
    (by norm_num [TOKEN_REFRESH_BUFFER])
  exact h

/-! ## Claim C2: refresh-failure classification -/

/-- C2 as stated is false: whether a failed refresh clears the token is
decided by substring matching on the exception message, so an HTTP 500
failure whose body happens to contain "401" also clears the stored
refresh token and raises `AuthenticationExpired`, instead of returning
false with state unchanged. -/
theorem C2_counterexample :
    (refresh_access_token (.httpError 500 "upstream proxy replied 401") none 0 auth0).1 =
        RefreshResult.authExpired ∧
    (refresh_access_token (.httpError 500 "upstream proxy replied 401") none 0 auth0).2.refresh_token
        ≠ auth0.refresh_token := by
  constructor <;> decide

/-- C2 amended: a failed refresh clears the stored refresh token and
raises `AuthenticationExpired` exactly when the composed error message
`"Refresh token request failed: {status} - {body}"` contains the
substring "401", or contains both "400" and "invalid_grant" (in
particular for genuine HTTP 401 responses and HTTP 400 responses
carrying "invalid_grant"); any other failure — including non-HTTP
exceptions — returns false and leaves all credential state unchanged. -/
theorem C2_refresh_failure_classification (status : Nat) (body : String)
    (sigFetch : Option String) (now : ℚ) (st : AuthState)
    (hr : pyTruthyStr st.refresh_token = true) (hc : pyTruthyStr st.client_id = true) :
    (isRevokedMsg (refreshErrMsg status body) = true →
      refresh_access_token (.httpError status body) sigFetch now st =
        (.authExpired, { st with refresh_token := none })) ∧
    (isRevokedMsg (refreshErrMsg status body) = false →
      refresh_access_token (.httpError status body) sigFetch now st = (.failed, st)) ∧
    refresh_access_token .otherError sigFetch now st = (.failed, st) := by
  refine ⟨fun h => ?_, fun h => ?_, ?_⟩
  · simp [refresh_access_token, hr, hc, h]
  · simp [refresh_access_token, hr, hc, h]
  · simp [refresh_access_token, hr, hc]

/-- Witness for the amended C2: a genuine HTTP 401 clears the refresh
token and raises; a clean HTTP 500 returns false with state unchanged. -/
theorem C2_refresh_failure_classification_witness :
    refresh_access_token (.httpError 401 "Unauthorized") none 0 auth0 =
      (.authExpired, { auth0 with refresh_token := none }) ∧
    refresh_access_token (.httpError 500 "Internal Server Error") none 0 auth0 =
      (.failed, auth0) := by
  constructor
  · exact (C2_refresh_failure_classification 401 "Unauthorized" none 0 auth0
      (by decide) (by decide)).1 (by decide)
  · exact (C2_refresh_failure_classification 500 "Internal Server Error" none 0 auth0
      (by decide) (by decide)).2.1 (by decide)

/-! ## Claim C6: successful refresh bookkeeping -/

/-- C6 as stated is false: the code tests `exp` for Python truthiness,
not presence, so a successful response containing `exp = 0` does not set
the stored expiry to the absolute timestamp 0 — it falls through to
`expires_in` and stores `now + expires_in`. -/
theorem C6_counterexample :
    (refresh_access_token
        (.success { access_token := some "newat", accessToken := none, refresh_token := none,
                    refreshToken := none, exp := some 0, expires_in := some 100 })
        none 1000 auth0).2.expires_at = some 1100 ∧
    (refresh_access_token
        (.success { access_token := some "newat", accessToken := none, refresh_token := none,
                    refreshToken := none, exp := some 0, expires_in := some 100 })
        none 1000 auth0).2.expires_at ≠ some ((0 : Int) : ℚ) := by
  have h : (refresh_access_token
      (.success { access_token := some "newat", accessToken := none, refresh_token := none,
                  refreshToken := none, exp := some 0, expires_in := some 100 })
      none 1000 auth0).2.expires_at = some 1100 := by
    simp [refresh_access_token, auth0, pyTruthyStr, String.isEmpty_iff, pyTruthyInt, pyOrStr]
    norm_num
  refine ⟨h, ?_⟩
  rw [h]
  norm_num

/-- The success branch of `refresh_access_token`, written as a single
record update. -/
theorem refresh_success_eq (td : TokenData) (sigFetch : Option String) (now : ℚ)
    (st : AuthState)
    (hr : pyTruthyStr st.refresh_token = true) (hc : pyTruthyStr st.client_id = true) :
    refresh_access_token (.success td) sigFetch now st =
      (.ok,
        { st with
          access_token := pyOrStr td.access_token td.accessToken
          refresh_token :=
            if pyTruthyStr (pyOrStr td.refresh_token td.refreshToken) = true then
              pyOrStr td.refresh_token td.refreshToken
            else st.refresh_token
          expires_at :=
            if pyTruthyInt td.exp = true then some ((td.exp.getD 0 : Int) : ℚ)
            else if pyTruthyInt td.expires_in = true then
              some (now + ((td.expires_in.getD 0 : Int) : ℚ))
            else st.expires_at
          signature :=
            match sigFetch with
            | some s => some s
            | none => st.signature }) := by
  cases sigFetch <;> simp [refresh_access_token, hr, hc] <;> split_ifs <;> simp

/-- C6 amended: on a successful refresh, a nonzero `exp` in the response
sets the stored expiry to that absolute timestamp; with `exp` absent or
zero, a nonzero `expires_in` sets it to `now + expires_in`; a response
omitting a new refresh token leaves the stored refresh token unchanged;
and the access token is overwritten with the response's access token. -/
theorem C6_refresh_success_state (td : TokenData) (sigFetch : Option String)
    (now : ℚ) (st : AuthState)
    (hr : pyTruthyStr st.refresh_token = true) (hc : pyTruthyStr st.client_id = true) :
    (∀ e : Int, td.exp = some e → e ≠ 0 →
      (refresh_access_token (.success td) sigFetch now st).2.expires_at = some (e : ℚ)) ∧
    (∀ d : Int, pyTruthyInt td.exp = false → td.expires_in = some d → d ≠ 0 →
      (refresh_access_token (.success td) sigFetch now st).2.expires_at =
        some (now + (d : ℚ))) ∧
    (td.refresh_token = none → td.refreshToken = none →
      (refresh_access_token (.success td) sigFetch now st).2.refresh_token =
        st.refresh_token) ∧
    (∀ a : String, td.access_token = some a → a ≠ "" →
      (refresh_access_token (.success td) sigFetch now st).2.access_token = some a) ∧
    (refresh_access_token (.success td) sigFetch now st).1 = RefreshResult.ok := by
  refine ⟨fun e he hne => ?_, fun d hexp hd hdne => ?_, fun h1 h2 => ?_, fun a ha hane => ?_, ?_⟩
  · have hT : pyTruthyInt (some e) = true := by simp [pyTruthyInt, hne]
    cases sigFetch <;> simp [refresh_access_token, hr, hc, he, hT]
  · have hT : pyTruthyInt (some d) = true := by simp [pyTruthyInt, hdne]
    cases sigFetch <;> simp [refresh_access_token, hr, hc, hexp, hd, hT]
  · have hnr : pyTruthyStr (pyOrStr td.refresh_token td.refreshToken) = false := by
      simp [pyOrStr, h1, h2, pyTruthyStr]
    rw [refresh_success_eq td sigFetch now st hr hc]
    simp [hnr]
  · have hie : a.isEmpty = false := by
      cases hEmpty : a.isEmpty
      · rfl
      · exact absurd ((String.isEmpty_iff a).mp hEmpty) hane
    have hA : pyOrStr td.access_token td.accessToken = some a := by
      simp [pyOrStr, pyTruthyStr, ha, hie]
    rw [refresh_success_eq td sigFetch now st hr hc]
    simp [hA]
  · cases sigFetch <;> simp [refresh_access_token, hr, hc]

/-- Witness for the amended C6 at a concrete response carrying a nonzero
`exp` and no new refresh token. -/
theorem C6_refresh_success_state_witness :
    (refresh_access_token
        (.success { access_token := some "newat", accessToken := none, refresh_token := none,
                    refreshToken := none, exp := some 1700000000, expires_in := none })
        (some "newsg") 0 auth0).2.expires_at = some ((1700000000 : Int) : ℚ) ∧
    (refresh_access_token
        (.success { access_token := some "newat", accessToken := none, refresh_token := none,
                    refreshToken := none, exp := some 1700000000, expires_in := none })
        (some "newsg") 0 auth0).2.refresh_token = auth0.refresh_token := by
  constructor
  · exact (C6_refresh_success_state _ (some "newsg") 0 auth0 (by decide) (by decide)).1
      1700000000 rfl (by norm_num)
  · exact (C6_refresh_success_state _ (some "newsg") 0 auth0 (by decide) (by decide)).2.2.1
      rfl rfl

/-! ## Coordinator: filter info (`coordinator.py`, `_get_filter_info`) -/

/-- Python `round(x, 1)` on exact decimal inputs: round half to even at
one decimal place, modelled over the rationals. -/
def roundHalfToEven (x : ℚ) : ℤ :=
  if x - ⌊x⌋ < 1 / 2 then ⌊x⌋
  else if 1 / 2 < x - ⌊x⌋ then ⌊x⌋ + 1
  else if (⌊x⌋ : ℤ) % 2 = 0 then ⌊x⌋ else ⌊x⌋ + 1

/-- One decimal place. -/
def pyRound1 (x : ℚ) : ℚ := (roundHalfToEven (x * 10) : ℚ) / 10

/-- The three derived fields one filter contributes to `filter_info`. -/
structure FilterSlot where
  percentage : Option ℚ
  hours_remaining : Option ℚ
  hours_total : Option ℚ
  deriving Repr, DecidableEq

/-- One filter block of `_get_filter_info`: fields are produced only when
`nominal` is truthy, `remaining` is not `None`, and `nominal > 0`
(`if nominal and remaining is not None and nominal > 0:`). -/
def filter_slot (nominal remaining : Option ℚ) : FilterSlot :=
  match nominal, remaining with
  | some n, some r =>
      if n ≠ 0 ∧ 0 < n then
        { percentage := some (pyRound1 (r / n * 100))
          hours_remaining := some r
          hours_total := some n }
      else { percentage := none, hours_remaining := none, hours_total := none }
  | _, _ => { percentage := none, hours_remaining := none, hours_total := none }

/-- Method `_get_filter_info()` over the already-fetched replace/clean nominal
and remaining values; returns `none` when the built dict is empty
(`return filter_info if filter_info else None`). -/
def get_filter_info (replace_nominal replace_remaining clean_nominal clean_remaining :
    Option ℚ) : Option (FilterSlot × FilterSlot) :=
  let rep := filter_slot replace_nominal replace_remaining
  let cl := filter_slot clean_nominal clean_remaining
  if rep = { percentage := none, hours_remaining := none, hours_total := none } ∧
      cl = { percentage := none, hours_remaining := none, hours_total := none } then none
  else some (rep, cl)

/-- C7: the derived filter percentage is `remaining / nominal * 100`
rounded to one decimal place — exactly 75.0 for nominal = 200,
remaining = 150 — computed only when `nominal > 0` and `remaining` is
present; with nominal 0 or either input absent, all derived fields are
omitted (and with no filter data at all the result is `None`), never
emitted as zeros. -/
theorem C7_filter_percentage (n r : ℚ) (ro no : Option ℚ) (hn : 0 < n) :
    filter_slot (some n) (some r) =
      { percentage := some (pyRound1 (r / n * 100))
        hours_remaining := some r
        hours_total := some n } ∧
    filter_slot (some 0) ro =
      { percentage := none, hours_remaining := none, hours_total := none } ∧
    filter_slot none ro =
      { percentage := none, hours_remaining := none, hours_total := none } ∧
    filter_slot no none =
      { percentage := none, hours_remaining := none, hours_total := none } ∧
    filter_slot (some 200) (some 150) =
      { percentage := some 75, hours_remaining := some 150, hours_total := some 200 } ∧
    get_filter_info (some 0) ro none no = none := by
  refine ⟨?_, ?_, ?_, ?_, ?_, ?_⟩
  · simp [filter_slot, hn, ne_of_gt hn]
  · cases ro <;> simp [filter_slot]
  · cases ro <;> simp [filter_slot]
  · cases no <;> simp [filter_slot]
  · have h75 : pyRound1 ((150 : ℚ) / 200 * 100) = 75 := by
      norm_num [pyRound1, roundHalfToEven]
    simp [filter_slot, h75]
  · cases ro <;> cases no <;> simp [get_filter_info, filter_slot]

/-- Witness for C7 at nominal 4, remaining 1 (25.0 %). -/
theorem C7_filter_percentage_witness :
    filter_slot (some 4) (some 1) =
      { percentage := some (pyRound1 ((1 : ℚ) / 4 * 100))
        hours_remaining := some 1
        hours_total := some 4 } :=
  (C7_filter_percentage 4 1 none none (by norm_num)).1

/-! ## Mode resolution (`model_manager.py` `get_mode_name`,
`coordinator.py` `_get_mode_name`) -/

/-- Method `PhilipsAirplusModelManager.get_mode_name`: scan the model's `modes`
table (a dict in insertion order) and return the first name whose value
matches, else `None`. -/
def get_mode_name (modes : List (String × Int)) (v : Int) : Option String :=
  (modes.find? (fun p => p.2 == v)).map Prod.fst

/-- Method `PhilipsAirplusDataCoordinator._get_mode_name`:
`return name or PRESET_MODE_MANUAL`. -/
def coordinator_get_mode_name (modes : List (String × Int)) (v : Int) : String :=
  match get_mode_name modes v with
  | some name => if name.isEmpty then "manual" else name
  | none => "manual"

/-- C9: mode-name resolution returns a name mapped to the given value in
the model's capability table when such a mapping exists (the table's
names being nonempty), and resolves every unmapped value to the
"manual" sentinel. -/
theorem C9_mode_resolution (modes : List (String × Int)) (v : Int)
    (hne : ∀ p ∈ modes, p.1 ≠ "") :
    ((∃ n, (n, v) ∈ modes) →
      ∃ n, (n, v) ∈ modes ∧ coordinator_get_mode_name modes v = n) ∧
    ((∀ n, (n, v) ∉ modes) → coordinator_get_mode_name modes v = "manual") := by
  cases hf : modes.find? (fun p => p.2 == v) with
  | none =>
      have hnone : ∀ p ∈ modes, p.2 ≠ v := by
        intro p hp
        have := List.find?_eq_none.mp hf p hp
        simpa using this
      constructor
      · rintro ⟨n, hn⟩
        exact absurd rfl (hnone (n, v) hn)
      · intro _
        simp [coordinator_get_mode_name, get_mode_name, hf]
  | some p =>
      have hpv : p.2 = v := by
        have := List.find?_some hf
        simpa using this
      have hmem : p ∈ modes := List.mem_of_find?_eq_some hf
      have hp1 : p.1 ≠ "" := hne p hmem
      have hie : p.1.isEmpty = false := by
        cases hEmpty : p.1.isEmpty
        · rfl
        · exact absurd ((String.isEmpty_iff p.1).mp hEmpty) hp1
      have hname : coordinator_get_mode_name modes v = p.1 := by
        simp [coordinator_get_mode_name, get_mode_name, hf, hie]
      constructor
      · intro _
        refine ⟨p.1, ?_, hname⟩
        have : (p.1, v) = p := by
          cases p with
          | mk a b => simp at hpv; simp [hpv]
        rw [this]
        exact hmem
      · intro hno
        exfalso
        apply hno p.1
        have : (p.1, v) = p := by
          cases p with
          | mk a b => simp at hpv; simp [hpv]
        rw [this]
        exact hmem

/-- A concrete capability table. -/
def modes0 : List (String × Int) := [("auto", 0), ("sleep", 17), ("turbo", 18)]

/-- Witness for C9: value 17 resolves to "sleep" in a concrete table. -/
theorem C9_mode_resolution_witness :
    (∃ n, (n, (17 : Int)) ∈ modes0 ∧ coordinator_get_mode_name modes0 17 = n) ∧
    coordinator_get_mode_name modes0 99 = "manual" := by
  constructor
  · exact (C9_mode_resolution modes0 17 (by decide)).1 ⟨"sleep", by decide⟩
  · exact (C9_mode_resolution modes0 99 (by decide)).2
      (by intro n hn; simp [modes0] at hn)

/-! ## Authorization-code extraction (`auth.py`, `async_request_token`)

The sanitisation of `raw_code`, working on lists of characters:
`code.strip().strip('"').strip("'")`, then
`re.search(r"(?:^|[?&])code=([^&\s]+)", raw)` with URL-decoding of the
captured group, else the plain `code=` / `&` fallback, then a final
strip; an empty remainder raises. -/

/-- The characters Python's default `str.strip()` removes. -/
def pySpaceChar (c : Char) : Bool :=
  c == ' ' || c == '\t' || c == '\n' || c == '\r' || c == Char.ofNat 11 || c == Char.ofNat 12

/-- Python `str.strip(chars)`: drop matching characters from both ends. -/
def stripList (p : Char → Bool) (l : List Char) : List Char :=
  ((l.dropWhile p).reverse.dropWhile p).reverse

/-- Sanitisation `code.strip().strip('"').strip("'")`. -/
def sanitizeRaw (l : List Char) : List Char :=
  stripList (fun c => c == Char.ofNat 39) (stripList (fun c => c == '"') (stripList pySpaceChar l))

/-- A character the regex class `[^&\s]` accepts. -/
def isCapChar (c : Char) : Bool :=
  !(c == '&') && !pySpaceChar c

/-- The literal `code=`. -/
def codeLit : List Char := ['c', 'o', 'd', 'e', '=']

/-- The `(?:^|[?&])` boundary: start of string, or right after `?`/`&`. -/
def boundaryOk : Option Char → Bool
  | none => true
  | some c => c == '?' || c == '&'

/-- Search `re.search(r"(?:^|[?&])code=([^&\s]+)", raw)`: leftmost occurrence of
`code=` preceded by a boundary and followed by at least one acceptable
character; returns the maximal captured group. -/
def scanCode (prev : Option Char) : List Char → Option (List Char)
  | [] => none
  | c :: rest =>
      if boundaryOk prev && listHasPre codeLit (c :: rest)
          && !(((c :: rest).drop 5).takeWhile isCapChar).isEmpty then
        some (((c :: rest).drop 5).takeWhile isCapChar)
      else scanCode (some c) rest

/-- Hexadecimal digit test for `urllib.parse.unquote`. -/
def isHexDigitB (c : Char) : Bool :=
  c.isDigit || ('a' ≤ c && c ≤ 'f') || ('A' ≤ c && c ≤ 'F')

/-- Value of a hexadecimal digit. -/
def hexVal (c : Char) : Nat :=
  if c.isDigit then c.toNat - '0'.toNat
  else if 'a' ≤ c && c ≤ 'f' then c.toNat - 'a'.toNat + 10
  else c.toNat - 'A'.toNat + 10

/-- Decoder `urllib.parse.unquote`: decode each valid `%XX` escape, leave invalid
percent signs alone. -/
def unquoteList : List Char → List Char
  | [] => []
  | [c] => [c]
  | [c, a] => [c, a]
  | c :: a :: b :: rest =>
      if c == '%' then
        if isHexDigitB a && isHexDigitB b then
          Char.ofNat (16 * hexVal a + hexVal b) :: unquoteList rest
        else c :: unquoteList (a :: b :: rest)
      else c :: unquoteList (a :: b :: rest)

/-- The code-extraction step of `async_request_token`: sanitize, regex
search with URL-decoding, fallback handling of `code=...` / `...&...`
fragments, final strip; `none` models the empty-code `RuntimeError`. -/
def extract_code (input : List Char) : Option (List Char) :=
  let raw := sanitizeRaw input
  let raw2 :=
    match scanCode none raw with
    | some cap => unquoteList cap
    | none =>
        let r1 := if listHasPre codeLit raw then raw.drop 5 else raw
        let r2 := if '&' ∈ r1 then r1.takeWhile (fun c => !(c == '&')) else r1
        r2
  let codeRes := stripList pySpaceChar raw2
  if codeRes.isEmpty then none else some codeRes

/-- Characters a bare authorization code is built from (the device flow
produces codes such as `st2.xxxxx.sc3`): alphanumerics, dot, dash,
underscore. -/
def safeCodeChar (c : Char) : Bool :=
  c.isAlphanum || c == '.' || c == '-' || c == '_'

/-- A safe code character is none of the concretely unsafe characters. -/
theorem safe_ne (c x : Char) (h : safeCodeChar c = true) (hx : safeCodeChar x = false) :
    c ≠ x := by
  intro h'
  subst h'
  simp [h] at hx

/-- Safe code characters are not stripped as whitespace. -/
theorem safe_pySpace (c : Char) (h : safeCodeChar c = true) : pySpaceChar c = false := by
  simp [pySpaceChar, safe_ne c ' ' h (by decide), safe_ne c '\t' h (by decide),
    safe_ne c '\n' h (by decide), safe_ne c '\r' h (by decide),
    safe_ne c (Char.ofNat 11) h (by decide), safe_ne c (Char.ofNat 12) h (by decide)]

/-- Safe code characters are accepted by the capture class `[^&\s]`. -/
theorem safe_isCap (c : Char) (h : safeCodeChar c = true) : isCapChar c = true := by
  simp [isCapChar, safe_pySpace c h, safe_ne c '&' h (by decide)]

/-- Function `dropWhile` is the identity when no element matches. -/
theorem dropWhile_all_false (p : Char → Bool) :
    ∀ l : List Char, (∀ x ∈ l, p x = false) → l.dropWhile p = l
  | [], _ => rfl
  | x :: xs, h => by simp [List.dropWhile, h x (List.mem_cons_self x xs)]

/-- Function `stripList` is the identity when no element matches. -/
theorem stripList_all_false (p : Char → Bool) (l : List Char)
    (h : ∀ x ∈ l, p x = false) : stripList p l = l := by
  have h1 := dropWhile_all_false p l h
  have h2 := dropWhile_all_false p l.reverse (fun x hx => h x (List.mem_reverse.mp hx))
  simp [stripList, h1, h2]

/-- Sanitisation is the identity on a safe code. -/
theorem sanitizeRaw_safe (c : List Char) (hsafe : ∀ x ∈ c, safeCodeChar x = true) :
    sanitizeRaw c = c := by
  have h1 : stripList pySpaceChar c = c :=
    stripList_all_false _ _ (fun x hx => safe_pySpace x (hsafe x hx))
  have h2 : stripList (fun ch => ch == '"') c = c :=
    stripList_all_false _ _ (fun x hx => by
      simp [safe_ne x '"' (hsafe x hx) (by decide)])
  have h3 : stripList (fun ch => ch == Char.ofNat 39) c = c :=
    stripList_all_false _ _ (fun x hx => by
      simp [safe_ne x (Char.ofNat 39) (hsafe x hx) (by decide)])
  simp [sanitizeRaw, h1, h2, h3]

/-- Every character of a matched literal occurs in the matched list. -/
theorem listHasPre_mem : ∀ pat l : List Char, listHasPre pat l = true → ∀ x ∈ pat, x ∈ l
  | [], _, _, x, hx => absurd hx (List.not_mem_nil x)
  | p :: ps, [], h, _, _ => by simp [listHasPre] at h
  | p :: ps, c :: cs, h, x, hx => by
      simp only [listHasPre, Bool.and_eq_true, beq_iff_eq] at h
      obtain ⟨hpc, hrest⟩ := h
      rcases List.mem_cons.mp hx with h1 | h2
      · subst h1
        rw [hpc]
        exact List.mem_cons_self c cs
      · exact List.mem_cons_of_mem c (listHasPre_mem ps cs hrest x h2)

/-- A safe code contains no `=`, so `code=` does not occur in it. -/
theorem listHasPre_code_safe (c : List Char) (hsafe : ∀ x ∈ c, safeCodeChar x = true) :
    listHasPre codeLit c = false := by
  cases htest : listHasPre codeLit c
  · rfl
  · have hmem := listHasPre_mem codeLit c htest '=' (by decide)
    exact absurd (hsafe '=' hmem) (by decide)

/-- The regex finds no match inside a safe code. -/
theorem scanCode_safe :
    ∀ c : List Char, ∀ prev, (∀ x ∈ c, safeCodeChar x = true) → scanCode prev c = none := by
  intro c
  induction c with
  | nil => intro prev _; rfl
  | cons x xs ih =>
      intro prev h
      have hsuf : ∀ y ∈ xs, safeCodeChar y = true :=
        fun y hy => h y (List.mem_cons_of_mem x hy)
      have hp : listHasPre codeLit (x :: xs) = false := listHasPre_code_safe (x :: xs) h
      simp [scanCode, hp]
      exact ih (some x) hsuf

/-- The capture group stops exactly at the first `&` after a safe code. -/
theorem takeWhile_amp :
    ∀ c : List Char, ∀ tl : List Char, (∀ x ∈ c, safeCodeChar x = true) →
      (c ++ '&' :: tl).takeWhile isCapChar = c := by
  intro c
  induction c with
  | nil => intro tl _; simp [List.takeWhile, isCapChar, pySpaceChar]
  | cons x xs ih =>
      intro tl h
      simp only [List.cons_append, List.takeWhile,
        safe_isCap x (h x (List.mem_cons_self x xs))]
      simp [ih tl (fun y hy => h y (List.mem_cons_of_mem x hy))]

/-- Function `unquoteList` passes a non-percent head through. -/
theorem unquote_cons (a : Char) (rest : List Char) (ha : (a == '%') = false) :
    unquoteList (a :: rest) = a :: unquoteList rest := by
  match rest with
  | [] => rfl
  | [x] => rfl
  | x :: y :: t => simp [unquoteList, ha]

/-- URL-decoding is the identity on a safe code (no percent signs). -/
theorem unquote_safe : ∀ c : List Char, (∀ x ∈ c, safeCodeChar x = true) →
    unquoteList c = c := by
  intro c
  induction c with
  | nil => intro _; rfl
  | cons x xs ih =>
      intro h
      rw [unquote_cons x xs (by simp [safe_ne x '%' (h x (List.mem_cons_self x xs)) (by decide)]),
        ih (fun y hy => h y (List.mem_cons_of_mem x hy))]

/-- Evaluation of `extract_code` when the regex search succeeds on the sanitized input. -/
theorem extract_code_of_scan (input cap : List Char)
    (hscan : scanCode none (sanitizeRaw input) = some cap) :
    extract_code input =
      (if (stripList pySpaceChar (unquoteList cap)).isEmpty = true then none
       else some (stripList pySpaceChar (unquoteList cap))) := by
  simp only [extract_code]
  rw [hscan]

/-- Evaluation of `extract_code` when the regex search fails on the sanitized input. -/
theorem extract_code_of_none (input : List Char)
    (hscan : scanCode none (sanitizeRaw input) = none) :
    extract_code input =
      (let r1 := if listHasPre codeLit (sanitizeRaw input) = true then (sanitizeRaw input).drop 5
                 else sanitizeRaw input
       let r2 := if '&' ∈ r1 then r1.takeWhile (fun ch => !(ch == '&')) else r1
       if (stripList pySpaceChar r2).isEmpty = true then none
       else some (stripList pySpaceChar r2)) := by
  simp only [extract_code]
  rw [hscan]

/-- C3: each of the three accepted input forms — the bare code, the full
redirect URL with `code=<c>` as query parameter, and a `code=<c>&...`
query fragment — extracts to the identical bare code; an input with
nothing left after extraction yields the empty-code error. -/
theorem C3_code_extraction (c : List Char) (hne : c ≠ [])
    (hsafe : ∀ x ∈ c, safeCodeChar x = true) :
    extract_code c = some c ∧
    extract_code ("com.philips.air://loginredirect?code=".data ++ c ++ "&state=xyz".data) =
      some c ∧
    extract_code ("code=".data ++ c ++ "&state=xyz".data) = some c ∧
    extract_code [] = none ∧
    extract_code "code=".data = none := by
  have hcne : c.isEmpty = false := by
    cases c
    · exact absurd rfl hne
    · rfl
  have hstrip : stripList pySpaceChar c = c :=
    stripList_all_false _ _ (fun x hx => safe_pySpace x (hsafe x hx))
  have htw : (c ++ '&' :: "state=xyz".data).takeWhile isCapChar = c :=
    takeWhile_amp c _ hsafe
  have hunq : unquoteList c = c := unquote_safe c hsafe
  refine ⟨?_, ?_, ?_, by decide, by decide⟩
  · have hsanA : sanitizeRaw c = c := sanitizeRaw_safe c hsafe
    have hamp : '&' ∉ c := fun hmem => absurd (hsafe '&' hmem) (by decide)
    rw [extract_code_of_none c (by rw [hsanA]; exact scanCode_safe c none hsafe)]
    simp [hsanA, listHasPre_code_safe c hsafe, hamp, hstrip, hcne]
  · have hsan : sanitizeRaw
        ("com.philips.air://loginredirect?code=".data ++ c ++ "&state=xyz".data) =
        "com.philips.air://loginredirect?code=".data ++ c ++ "&state=xyz".data := by
      simp [sanitizeRaw, stripList, List.dropWhile, pySpaceChar, List.reverse_append]
    have hscan : scanCode none
        ("com.philips.air://loginredirect?code=".data ++ c ++ "&state=xyz".data) = some c := by
      simp [scanCode, listHasPre, codeLit, boundaryOk, htw, hcne]
    rw [extract_code_of_scan _ c (by rw [hsan]; exact hscan)]
    simp [hunq, hstrip, hcne]
  · have hsan : sanitizeRaw ("code=".data ++ c ++ "&state=xyz".data) =
        "code=".data ++ c ++ "&state=xyz".data := by
      simp [sanitizeRaw, stripList, List.dropWhile, pySpaceChar, List.reverse_append]
    have hscan : scanCode none ("code=".data ++ c ++ "&state=xyz".data) = some c := by
      simp [scanCode, listHasPre, codeLit, boundaryOk, htw, hcne]
    rw [extract_code_of_scan _ c (by rw [hsan]; exact hscan)]
    simp [hunq, hstrip, hcne]

/-- Witness for C3 at the concrete code `st2.abc.sc3`. -/
theorem C3_code_extraction_witness :
    extract_code "st2.abc.sc3".data = some "st2.abc.sc3".data ∧
    extract_code ("com.philips.air://loginredirect?code=".data ++ "st2.abc.sc3".data ++
      "&state=xyz".data) = some "st2.abc.sc3".data := by
  have h := C3_code_extraction "st2.abc.sc3".data (by decide) (by decide)
  exact ⟨h.1, h.2.1⟩

end PhilipsAirplus
